import Mathlib

/-!
Verification of the temporal feature-assembly pipeline
(`src/features/rolling.py`, `src/features/situational.py`,
`src/features/assemble.py`).

The Python source is shallowly embedded: pandas DataFrames become lists of
records, float arithmetic is modelled exactly by `ℚ`, NaN cells by `Option`,
and raised exceptions by `Except` / `Option` results.  Data loading from disk
is out of scope of the pipeline (spec §1): loaded tables are passed in as
explicit arguments.  Identification columns that the embedded computations
never read (e.g. `game_id` on metric rows) are omitted from the record types.
-/

namespace NFL

/-- One cell of a pandas DataFrame row: a number, a string, a boolean, or a
null/None cell. -/
inductive ColValue where
  | num (q : ℚ)
  | str (s : String)
  | bool (b : Bool)
  | null
deriving Repr, DecidableEq

/-- A DataFrame row, keyed by column name (in column order). -/
abbrev Row := List (String × ColValue)

/-- `series[key]` lookup on a row; `none` models a raised `KeyError`. -/
def seriesGet (row : Row) (key : String) : Option ColValue :=
  (row.find? (fun kv => kv.1 = key)).map (·.2)

/-- One schedule record (`SchedulesReader.load_schedules` output), as consumed
by the feature modules: season, week, team codes, market lines and (for
completed games) final scores / signed result.  `none` models a NaN cell. -/
structure Game where
  game_id : String
  season : ℤ
  week : ℤ
  home_team : String
  away_team : String
  spread_line : ℚ
  total_line : ℚ
  moneyline : ℚ
  home_score : Option ℚ
  away_score : Option ℚ
  result : Option ℚ
deriving Repr, DecidableEq

/-- One team-game metric record, as produced by
`RollingFeatureCalculator._calculate_team_game_metrics` (the columns that the
rolling windows read; the source spells the defensive columns `def_def_*`
because it prefixes an already-prefixed dict). -/
structure TeamContestMetric where
  week : ℤ
  team : String
  off_epa_play : ℚ
  off_pass_epa_play : ℚ
  off_run_epa_play : ℚ
  off_early_down_pass_epa_play : ℚ
  off_success_rate : ℚ
  def_epa_play_allowed : ℚ
  def_pass_epa_play_allowed : ℚ
  def_run_epa_play_allowed : ℚ
  def_success_rate_allowed : ℚ
deriving Repr, DecidableEq

/-- The `windows:` section of `configs/features.yaml` used by the calculator. -/
structure WindowsConfig where
  l3 : ℕ
  l5 : ℕ
  l6 : ℕ
  ewma_alpha : ℚ
  ewma_min_periods : ℕ
  early_min_weeks : ℤ
  shrinkage : ℚ
deriving Repr, DecidableEq

/-- One window's nine aggregate metrics
(`RollingFeatureCalculator._calculate_window_features` output). -/
structure WindowFeatures where
  off_epa_play : ℚ
  off_pass_epa_play : ℚ
  off_run_epa_play : ℚ
  off_early_down_pass_epa_play : ℚ
  off_success_rate : ℚ
  def_epa_play_allowed : ℚ
  def_pass_epa_play_allowed : ℚ
  def_run_epa_play_allowed : ℚ
  def_success_rate_allowed : ℚ
deriving Repr, DecidableEq

/-- The nine EWMA aggregates; `none` models the NaN that
`Series.ewm(min_periods=k).mean().iloc[-1]` yields on short histories. -/
structure EwmaFeatures where
  off_epa_play : Option ℚ
  off_pass_epa_play : Option ℚ
  off_run_epa_play : Option ℚ
  off_early_down_pass_epa_play : Option ℚ
  off_success_rate : Option ℚ
  def_epa_play_allowed : Option ℚ
  def_pass_epa_play_allowed : Option ℚ
  def_run_epa_play_allowed : Option ℚ
  def_success_rate_allowed : Option ℚ
deriving Repr, DecidableEq

/-- One row of the rolling-features table (one per team per week). -/
structure RollingRow where
  season : ℤ
  week : ℤ
  team : String
  l3 : WindowFeatures
  l5 : WindowFeatures
  l6 : WindowFeatures
  ewma : EwmaFeatures
deriving Repr, DecidableEq

/-- `pandas.Series.mean` of a column (only applied to nonempty windows by the
source; on `[]` the `ℚ` convention `0 / 0 = 0` applies). -/
def listMean (l : List ℚ) : ℚ := l.sum / (l.length : ℚ)

/-- `DataFrame.tail(n)`: the last `n` rows. -/
def lastN (n : ℕ) (l : List α) : List α := l.drop (l.length - n)

/-- `sort_values('week')` on metric rows (stable sort by week ascending). -/
def sortByWeek (rows : List TeamContestMetric) : List TeamContestMetric :=
  rows.insertionSort (fun a b => a.week ≤ b.week)

/-- `RollingFeatureCalculator._get_shrinkage_factor`. -/
def getShrinkageFactor (cfg : WindowsConfig) (dataLength windowSize : ℕ)
    (currentWeek : ℤ) : ℚ :=
  if currentWeek ≥ cfg.early_min_weeks then 1
  else if dataLength < windowSize then cfg.shrinkage
  else 1

/-- All-zero window features
(`RollingFeatureCalculator._get_empty_window_features`). -/
def zeroWindowFeatures : WindowFeatures :=
  ⟨0, 0, 0, 0, 0, 0, 0, 0, 0⟩

/-- All-zero EWMA features (`RollingFeatureCalculator._get_empty_ewma_features`,
which fills literal `0.0`, i.e. a present zero, not NaN). -/
def zeroEwmaFeatures : EwmaFeatures :=
  ⟨some 0, some 0, some 0, some 0, some 0, some 0, some 0, some 0, some 0⟩

/-- `RollingFeatureCalculator._calculate_window_features`. -/
def calculateWindowFeatures (cfg : WindowsConfig)
    (windowData : List TeamContestMetric) (windowSize : ℕ)
    (currentWeek : ℤ) : WindowFeatures :=
  if windowData.isEmpty then zeroWindowFeatures
  else
    let s := getShrinkageFactor cfg windowData.length windowSize currentWeek
    { off_epa_play := listMean (windowData.map (·.off_epa_play)) * s
      off_pass_epa_play := listMean (windowData.map (·.off_pass_epa_play)) * s
      off_run_epa_play := listMean (windowData.map (·.off_run_epa_play)) * s
      off_early_down_pass_epa_play :=
        listMean (windowData.map (·.off_early_down_pass_epa_play)) * s
      off_success_rate := listMean (windowData.map (·.off_success_rate)) * s
      def_epa_play_allowed :=
        listMean (windowData.map (·.def_epa_play_allowed)) * s
      def_pass_epa_play_allowed :=
        listMean (windowData.map (·.def_pass_epa_play_allowed)) * s
      def_run_epa_play_allowed :=
        listMean (windowData.map (·.def_run_epa_play_allowed)) * s
      def_success_rate_allowed :=
        listMean (windowData.map (·.def_success_rate_allowed)) * s }

/-- `Series.ewm(alpha, min_periods, adjust=True).mean().iloc[-1]`: the
adjusted exponentially weighted mean of the whole column, NaN (`none`) when
fewer than `minPeriods` observations exist. -/
def ewmaMean (alpha : ℚ) (minPeriods : ℕ) (l : List ℚ) : Option ℚ :=
  if l.length < minPeriods then none
  else
    let n := l.length
    let weights := (List.range n).map (fun i => (1 - alpha) ^ (n - 1 - i))
    some ((List.zipWith (· * ·) weights l).sum / weights.sum)

/-- `RollingFeatureCalculator._calculate_ewma_features` (nonempty history). -/
def calculateEwmaFeatures (cfg : WindowsConfig)
    (historicalData : List TeamContestMetric) : EwmaFeatures :=
  let e := fun proj =>
    ewmaMean cfg.ewma_alpha cfg.ewma_min_periods (historicalData.map proj)
  { off_epa_play := e (·.off_epa_play)
    off_pass_epa_play := e (·.off_pass_epa_play)
    off_run_epa_play := e (·.off_run_epa_play)
    off_early_down_pass_epa_play := e (·.off_early_down_pass_epa_play)
    off_success_rate := e (·.off_success_rate)
    def_epa_play_allowed := e (·.def_epa_play_allowed)
    def_pass_epa_play_allowed := e (·.def_pass_epa_play_allowed)
    def_run_epa_play_allowed := e (·.def_run_epa_play_allowed)
    def_success_rate_allowed := e (·.def_success_rate_allowed) }

/-- `RollingFeatureCalculator._calculate_team_rolling_features`. -/
def calculateTeamRollingFeatures (cfg : WindowsConfig)
    (historicalData : List TeamContestMetric) (team : String)
    (season week : ℤ) : RollingRow :=
  { season := season, week := week, team := team
    l3 := calculateWindowFeatures cfg (lastN cfg.l3 historicalData) cfg.l3 week
    l5 := calculateWindowFeatures cfg (lastN cfg.l5 historicalData) cfg.l5 week
    l6 := calculateWindowFeatures cfg (lastN cfg.l6 historicalData) cfg.l6 week
    ewma := calculateEwmaFeatures cfg historicalData }

/-- `RollingFeatureCalculator._create_default_rolling_features`. -/
def defaultRollingRow (team : String) (season week : ℤ) : RollingRow :=
  { season := season, week := week, team := team
    l3 := zeroWindowFeatures, l5 := zeroWindowFeatures
    l6 := zeroWindowFeatures, ewma := zeroEwmaFeatures }

/-- The team history rows visible to week `W`: rows sorted by week ascending,
restricted to `week < W` (`_calculate_rolling_windows`, inner loop). -/
def histBefore (teamData : List TeamContestMetric) (W : ℤ) :
    List TeamContestMetric :=
  (sortByWeek teamData).filter (fun r => decide (r.week < W))

/-- One iteration of `_calculate_rolling_windows`'s inner loop: the feature row
of a single team at a single week. -/
def rollingRowForTeamWeek (cfg : WindowsConfig)
    (teamData : List TeamContestMetric) (team : String) (season : ℤ)
    (currentWeek : ℤ) : RollingRow :=
  let historical := histBefore teamData currentWeek
  if historical.isEmpty then defaultRollingRow team season currentWeek
  else calculateTeamRollingFeatures cfg historical team season currentWeek

/-- `pandas.unique` order: first occurrences, in encounter order. -/
def uniqueFirstAux : List String → List String → List String
  | [], _ => []
  | a :: rest, seen =>
    if a ∈ seen then uniqueFirstAux rest seen
    else a :: uniqueFirstAux rest (a :: seen)

/-- Unique team codes in first-occurrence order. -/
def uniqueFirst (l : List String) : List String := uniqueFirstAux l []

/-- `RollingFeatureCalculator._calculate_rolling_windows`: for each team (in
first-appearance order) and each week `1..week`, one feature row. -/
def calculateRollingWindows (cfg : WindowsConfig)
    (teamGameMetrics : List TeamContestMetric) (season : ℤ) (week : ℕ) :
    List RollingRow :=
  (uniqueFirst (teamGameMetrics.map (·.team))).flatMap (fun t =>
    let teamData := teamGameMetrics.filter (fun r => decide (r.team = t))
    (List.range week).map (fun i =>
      rollingRowForTeamWeek cfg teamData t season ((i : ℤ) + 1)))

/-- `RollingFeatureCalculator.calculate_rolling_features`: range validation,
then windowing.  The play-by-play extraction stage is materialized as the
`teamGameMetrics` input (data loading is an external collaborator, spec §1). -/
def calculateRollingFeatures (cfg : WindowsConfig)
    (teamGameMetrics : List TeamContestMetric) (season : ℤ) (week : ℕ) :
    Except String (List RollingRow) :=
  if season < 2000 ∨ 2030 < season then
    .error "Invalid season"
  else if week < 1 ∨ 22 < week then
    .error "Invalid week"
  else
    .ok (calculateRollingWindows cfg teamGameMetrics season week)

/-- `true` iff an `Except` computation did not raise. -/
def exceptIsOk : Except String α → Bool
  | .ok _ => true
  | .error _ => false

/-- `sort_values('week')` on schedule rows. -/
def sortGamesByWeek (rows : List Game) : List Game :=
  rows.insertionSort (fun a b => a.week ≤ b.week)

/-- The team's games before `currentWeek` as built by
`SituationalFeatureCalculator._calculate_rest_days`: home games, then away
games, sorted by week, restricted to `week < current_week`. -/
def priorTeamGames (gamesDf : List Game) (team : String) (currentWeek : ℤ) :
    List Game :=
  let teamGames := gamesDf.filter (fun g => decide (g.home_team = team))
    ++ gamesDf.filter (fun g => decide (g.away_team = team))
  (sortGamesByWeek teamGames).filter (fun g => decide (g.week < currentWeek))

/-- `SituationalFeatureCalculator._calculate_rest_days`. -/
def calculateRestDays (gamesDf : List Game) (team : String)
    (currentWeek : ℤ) : ℤ :=
  match (priorTeamGames gamesDf team currentWeek).map Game.week with
  | [] => 7
  | w :: ws =>
    let lastGameWeek := ws.foldl max w
    let daysBetweenWeeks := (currentWeek - lastGameWeek) * 7
    if daysBetweenWeeks = 7 then 7
    else if daysBetweenWeeks = 6 then 6
    else if daysBetweenWeeks = 10 then 10
    else if daysBetweenWeeks = 14 then 14
    else daysBetweenWeeks

/-- One row of `_calculate_basic_situational_features` output. -/
structure SituBasicRow where
  season : ℤ
  week : ℤ
  game_id : String
  team : String
  opponent : String
  situational_home : Bool
  situational_rest_days : ℤ
  situational_spread_close : ℚ
  total_close : ℚ
  moneyline_close : ℚ
  opponent_rest_days : ℤ
deriving Repr, DecidableEq

/-- `SituationalFeatureCalculator._calculate_basic_situational_features`:
two rows per game of week `≤ week`, spread sign-flipped for the away team. -/
def calculateBasicSituationalFeatures (schedules : List Game) (week : ℕ) :
    List SituBasicRow :=
  let gamesDf := schedules.filter (fun g => decide (g.week ≤ (week : ℤ)))
  gamesDf.flatMap (fun game =>
    let homeRestDays := calculateRestDays gamesDf game.home_team game.week
    let awayRestDays := calculateRestDays gamesDf game.away_team game.week
    [ { season := game.season, week := game.week, game_id := game.game_id
        team := game.home_team, opponent := game.away_team
        situational_home := true
        situational_rest_days := homeRestDays
        situational_spread_close := game.spread_line
        total_close := game.total_line
        moneyline_close := game.moneyline
        opponent_rest_days := awayRestDays },
      { season := game.season, week := game.week, game_id := game.game_id
        team := game.away_team, opponent := game.home_team
        situational_home := false
        situational_rest_days := awayRestDays
        situational_spread_close := -game.spread_line
        total_close := game.total_line
        moneyline_close := game.moneyline
        opponent_rest_days := homeRestDays } ])

/-- `SituationalFeatureCalculator._calculate_sos_factor`. -/
def calculateSosFactor (opponentOffEpa opponentDefEpaAllowed
    opponentOffSuccess opponentDefSuccessAllowed : ℚ) : ℚ :=
  let offStrength := opponentOffEpa
  let defStrength := -opponentDefEpaAllowed
  let offSuccessFactor := opponentOffSuccess
  let defSuccessFactor := 1 - opponentDefSuccessAllowed
  let combinedStrength :=
    (offStrength + defStrength + offSuccessFactor + defSuccessFactor) / 4
  let sosFactor := 1 + combinedStrength * (1 / 10)
  max (1 / 2) (min 2 sosFactor)

/-- One row of `_calculate_sos_adjustments` output. -/
structure SosRow where
  season : ℤ
  week : ℤ
  team : String
  opponent_off_epa_l3 : ℚ
  opponent_def_epa_allowed_l3 : ℚ
  opponent_off_success_l3 : ℚ
  opponent_def_success_allowed_l3 : ℚ
  sos_adjustment_factor : ℚ
deriving Repr, DecidableEq

/-- The default SoS row emitted when team or opponent rolling data is absent
(`_calculate_sos_adjustments`, empty-lookup branch): zero strength components
and a neutral factor of `1.0`. -/
def defaultSosRow (season week : ℤ) (team : String) : SosRow :=
  { season := season, week := week, team := team
    opponent_off_epa_l3 := 0, opponent_def_epa_allowed_l3 := 0
    opponent_off_success_l3 := 0, opponent_def_success_allowed_l3 := 0
    sos_adjustment_factor := 1 }

/-- The per-row body of `_calculate_sos_adjustments`: default when either
rolling lookup came back empty, else the opponent's L3 metrics and factor. -/
def calculateSosRow (season week : ℤ) (team : String)
    (teamRolling opponentRolling : Option RollingRow) : SosRow :=
  match teamRolling, opponentRolling with
  | some _, some opp =>
    let a := opp.l3.off_epa_play
    let b := opp.l3.def_epa_play_allowed
    let c := opp.l3.off_success_rate
    let d := opp.l3.def_success_rate_allowed
    { season := season, week := week, team := team
      opponent_off_epa_l3 := a, opponent_def_epa_allowed_l3 := b
      opponent_off_success_l3 := c, opponent_def_success_allowed_l3 := d
      sos_adjustment_factor := calculateSosFactor a b c d }
  | _, _ => defaultSosRow season week team

/-- The `(team, week)` lookup into the rolling table used by
`_calculate_sos_adjustments` (first matching row, `none` when empty). -/
def lookupRolling (rollingTable : List RollingRow) (team : String)
    (week : ℤ) : Option RollingRow :=
  (rollingTable.filter (fun r =>
    decide (r.team = team) && decide (r.week = week))).head?

/-- `_calculate_sos_adjustments` for one situational row. -/
def sosRowFor (rollingTable : List RollingRow) (row : SituBasicRow) : SosRow :=
  calculateSosRow row.season row.week row.team
    (lookupRolling rollingTable row.team row.week)
    (lookupRolling rollingTable row.opponent row.week)

/-- One row of `calculate_situational_features` output: the basic features
merged (on season/week/team) with the SoS features. -/
structure SituationalRow where
  season : ℤ
  week : ℤ
  game_id : String
  team : String
  opponent : String
  situational_home : Bool
  situational_rest_days : ℤ
  situational_spread_close : ℚ
  total_close : ℚ
  moneyline_close : ℚ
  opponent_rest_days : ℤ
  opponent_off_epa_l3 : ℚ
  opponent_def_epa_allowed_l3 : ℚ
  opponent_off_success_l3 : ℚ
  opponent_def_success_allowed_l3 : ℚ
  sos_adjustment_factor : ℚ
deriving Repr, DecidableEq

/-- The left-merge of a basic situational row with its SoS row (keys
season/week/team are 1:1 because the SoS table is built row-for-row). -/
def mergeSituRow (b : SituBasicRow) (s : SosRow) : SituationalRow :=
  { season := b.season, week := b.week, game_id := b.game_id
    team := b.team, opponent := b.opponent
    situational_home := b.situational_home
    situational_rest_days := b.situational_rest_days
    situational_spread_close := b.situational_spread_close
    total_close := b.total_close, moneyline_close := b.moneyline_close
    opponent_rest_days := b.opponent_rest_days
    opponent_off_epa_l3 := s.opponent_off_epa_l3
    opponent_def_epa_allowed_l3 := s.opponent_def_epa_allowed_l3
    opponent_off_success_l3 := s.opponent_off_success_l3
    opponent_def_success_allowed_l3 := s.opponent_def_success_allowed_l3
    sos_adjustment_factor := s.sos_adjustment_factor }

/-- `SituationalFeatureCalculator.calculate_situational_features`: range
validation, basic features, SoS adjustments, merge.  The rolling features it
queries are recomputed from the materialized `teamGameMetrics`. -/
def calculateSituationalFeatures (cfg : WindowsConfig)
    (teamGameMetrics : List TeamContestMetric) (schedules : List Game)
    (season : ℤ) (week : ℕ) : Except String (List SituationalRow) :=
  if season < 2000 ∨ 2030 < season then
    .error "Invalid season"
  else if week < 1 ∨ 22 < week then
    .error "Invalid week"
  else
    let basic := calculateBasicSituationalFeatures schedules week
    match calculateRollingFeatures cfg teamGameMetrics season week with
    | .error e => .error e
    | .ok rollingTable =>
      .ok (basic.map (fun b => mergeSituRow b (sosRowFor rollingTable b)))

/-- The nine window feature columns of one window, with the source's
`{metric}_{window_name}` column names. -/
def windowCols (name : String) (w : WindowFeatures) : Row :=
  [ ("off_epa_play_" ++ name, .num w.off_epa_play),
    ("off_pass_epa_play_" ++ name, .num w.off_pass_epa_play),
    ("off_run_epa_play_" ++ name, .num w.off_run_epa_play),
    ("off_early_down_pass_epa_play_" ++ name,
      .num w.off_early_down_pass_epa_play),
    ("off_success_rate_" ++ name, .num w.off_success_rate),
    ("def_epa_play_allowed_" ++ name, .num w.def_epa_play_allowed),
    ("def_pass_epa_play_allowed_" ++ name, .num w.def_pass_epa_play_allowed),
    ("def_run_epa_play_allowed_" ++ name, .num w.def_run_epa_play_allowed),
    ("def_success_rate_allowed_" ++ name, .num w.def_success_rate_allowed) ]

/-- An EWMA cell as a DataFrame cell (NaN for `none`). -/
def ewmaCell : Option ℚ → ColValue
  | some q => .num q
  | none => .null

/-- The nine EWMA columns. -/
def ewmaCols (e : EwmaFeatures) : Row :=
  [ ("off_epa_play_ewma", ewmaCell e.off_epa_play),
    ("off_pass_epa_play_ewma", ewmaCell e.off_pass_epa_play),
    ("off_run_epa_play_ewma", ewmaCell e.off_run_epa_play),
    ("off_early_down_pass_epa_play_ewma",
      ewmaCell e.off_early_down_pass_epa_play),
    ("off_success_rate_ewma", ewmaCell e.off_success_rate),
    ("def_epa_play_allowed_ewma", ewmaCell e.def_epa_play_allowed),
    ("def_pass_epa_play_allowed_ewma", ewmaCell e.def_pass_epa_play_allowed),
    ("def_run_epa_play_allowed_ewma", ewmaCell e.def_run_epa_play_allowed),
    ("def_success_rate_allowed_ewma", ewmaCell e.def_success_rate_allowed) ]

/-- A rolling-table row as a pandas Series (column-name keyed). -/
def rollingRowCols (r : RollingRow) : Row :=
  [ ("season", .num r.season), ("week", .num r.week), ("team", .str r.team) ]
    ++ windowCols "l3" r.l3 ++ windowCols "l5" r.l5 ++ windowCols "l6" r.l6
    ++ ewmaCols r.ewma

/-- A situational-table row as a pandas Series.  Note the column names: the
home flag is stored as `situational_home`, not `home`. -/
def situRowCols (s : SituationalRow) : Row :=
  [ ("season", .num s.season), ("week", .num s.week),
    ("game_id", .str s.game_id), ("team", .str s.team),
    ("opponent", .str s.opponent),
    ("situational_home", .bool s.situational_home),
    ("situational_rest_days", .num s.situational_rest_days),
    ("situational_spread_close", .num s.situational_spread_close),
    ("total_close", .num s.total_close),
    ("moneyline_close", .num s.moneyline_close),
    ("opponent_rest_days", .num s.opponent_rest_days),
    ("opponent_off_epa_l3", .num s.opponent_off_epa_l3),
    ("opponent_def_epa_allowed_l3", .num s.opponent_def_epa_allowed_l3),
    ("opponent_off_success_l3", .num s.opponent_off_success_l3),
    ("opponent_def_success_allowed_l3",
      .num s.opponent_def_success_allowed_l3),
    ("sos_adjustment_factor", .num s.sos_adjustment_factor) ]

/-- A NaN-able schedule cell (`Series.get(col, None)`). -/
def optCell : Option ℚ → ColValue
  | some q => .num q
  | none => .null

/-- `FeatureAssembler._combine_team_features`.  The `[...]` Series accesses
`rolling_data['team']`, `situational_data['opponent']` and
`situational_data['home']` can raise `KeyError` (modelled by `none`); the
situational table has no `home` column, so the last of these always raises. -/
def combineTeamFeatures (rollingData : RollingRow)
    (situationalData : SituationalRow) (gameData : Game)
    (teamType : String) : Option Row :=
  let rCols := rollingRowCols rollingData
  let sCols := situRowCols situationalData
  match seriesGet rCols "team", seriesGet sCols "opponent",
      seriesGet sCols "home" with
  | some teamV, some oppV, some homeV =>
    some
      ([ ("season", .num gameData.season), ("week", .num gameData.week),
         ("game_id", .str gameData.game_id), ("team", teamV),
         ("opponent", oppV), ("home", homeV),
         ("team_type", .str teamType) ]
        ++ (rCols.filter (fun kv =>
              !(kv.1 = "season" ∨ kv.1 = "week" ∨ kv.1 = "team" : Bool))).map
            (fun kv => ("rolling_" ++ kv.1, kv.2))
        ++ (sCols.filter (fun kv =>
              !(kv.1 = "season" ∨ kv.1 = "week" ∨ kv.1 = "team"
                ∨ kv.1 = "opponent" : Bool))).map
            (fun kv => ("situational_" ++ kv.1, kv.2))
        ++ [ ("market_spread_close", .num gameData.spread_line),
             ("market_total_close", .num gameData.total_line),
             ("market_moneyline_close", .num gameData.moneyline),
             ("home_score", optCell gameData.home_score),
             ("away_score", optCell gameData.away_score),
             ("result", optCell gameData.result) ])
  | _, _, _ => none

/-- The `rolling_features[rolling_features['team'] == team]` selection followed
by `.iloc[0]` in `_assemble_game_features` (`none` when the filter is empty). -/
def selectTeamRolling (table : List RollingRow) (team : String) :
    Option RollingRow :=
  (table.filter (fun r => decide (r.team = team))).head?

/-- The analogous first-row selection from the situational table. -/
def selectTeamSituational (table : List SituationalRow) (team : String) :
    Option SituationalRow :=
  (table.filter (fun r => decide (r.team = team))).head?

/-- `FeatureAssembler._assemble_game_features`: recompute both feature tables
for the game's own week, select each team's first matching row, combine.
Any exception inside (range errors, `KeyError`) is caught by the blanket
`except`, making the whole game contribute `none`. -/
def assembleGameFeatures (cfg : WindowsConfig)
    (metricsOf : ℤ → List TeamContestMetric)
    (schedulesOf : ℤ → List Game) (game : Game) : Option (List Row) :=
  match
    calculateRollingFeatures cfg (metricsOf game.season) game.season
      game.week.toNat,
    calculateSituationalFeatures cfg (metricsOf game.season)
      (schedulesOf game.season) game.season game.week.toNat with
  | .ok rollingFeatures, .ok situationalFeatures =>
    let homeAcc :=
      match selectTeamRolling rollingFeatures game.home_team,
          selectTeamSituational situationalFeatures game.home_team with
      | some hr, some hs =>
        (combineTeamFeatures hr hs game "home").map (fun r => [r])
      | _, _ => some []
    match homeAcc with
    | none => none
    | some acc1 =>
      let awayAcc :=
        match selectTeamRolling rollingFeatures game.away_team,
            selectTeamSituational situationalFeatures game.away_team with
        | some ar, some as_ =>
          (combineTeamFeatures ar as_ game "away").map (fun r => [r])
        | _, _ => some []
      match awayAcc with
      | none => none
      | some acc2 =>
        let gameFeatures := acc1 ++ acc2
        if gameFeatures.isEmpty then none else some gameFeatures
  | _, _ => none

/-- `_add_training_labels`' per-row win decision: signed `result` if present,
else score comparison, else no label. -/
def computeLabelValue (g : Game) (isHome : Bool) : Option ColValue :=
  match g.result with
  | some r =>
    some (.num (if isHome then (if r > 0 then 1 else 0)
                else (if r < 0 then 1 else 0)))
  | none =>
    match g.home_score, g.away_score with
    | some hs, some as_ =>
      some (.num (if isHome then (if hs > as_ then 1 else 0)
                  else (if as_ > hs then 1 else 0)))
    | _, _ => none

/-- `_add_training_labels`, per modeling row: initialize `label_win` to null,
look the game up by id, and set the label when the outcome is known. -/
def labelRowFor (schedules : List Game) (row : Row) : Row :=
  let withNull := row ++ [("label_win", ColValue.null)]
  match seriesGet row "game_id", seriesGet row "home" with
  | some (.str gid), some (.bool isHome) =>
    match schedules.find? (fun g => decide (g.game_id = gid)) with
    | none => withNull
    | some g =>
      match computeLabelValue g isHome with
      | some v => row ++ [("label_win", v)]
      | none => withNull
  | _, _ => withNull

/-- `FeatureAssembler._add_training_labels`. -/
def addTrainingLabels (rows : List Row) (schedules : List Game) : List Row :=
  rows.map (labelRowFor schedules)

/-- The columns `_ensure_no_leakage` strips. -/
def futureCols : List String := ["home_score", "away_score", "result"]

/-- `FeatureAssembler._ensure_no_leakage`: drop the outcome columns. -/
def ensureNoLeakage (rows : List Row) : List Row :=
  rows.map (fun row => row.filter (fun kv => !(futureCols.contains kv.1)))

/-- `true` iff no cell of the row sits in an outcome column. -/
def rowLeakFree (row : Row) : Bool :=
  row.all (fun kv => !(futureCols.contains kv.1))

/-- `true` iff every row of the table is leak-free. -/
def tableLeakFree (t : List Row) : Bool := t.all rowLeakFree

/-- `FeatureAssembler._load_all_schedules`: one `Option` per season in the
configured range (`none` = the reader raised for that season); error iff no
season loaded, else the concatenation. -/
def loadAllSchedules (seasonLoads : List (Option (List Game))) :
    Except String (List Game) :=
  let allSchedules := seasonLoads.filterMap id
  if allSchedules.isEmpty then .error "No schedules data available"
  else .ok allSchedules.flatten

/-- `True` iff the game is future relative to the target (skipped by
`assemble_modeling_table`'s loop). -/
def isFutureGame (game : Game) (season week : ℤ) : Bool :=
  decide (game.season > season)
    || (decide (game.season = season) && decide (game.week > week))

/-- The loop body plus label and leakage stages of
`FeatureAssembler.assemble_modeling_table`, after schedules are loaded. -/
def assemblePipeline (cfg : WindowsConfig) (allSchedules : List Game)
    (metricsOf : ℤ → List TeamContestMetric) (season week : ℤ) : List Row :=
  let schedulesOf := fun s => allSchedules.filter (fun g => decide (g.season = s))
  let modelingData := allSchedules.flatMap (fun game =>
    if isFutureGame game season week then []
    else
      match assembleGameFeatures cfg metricsOf schedulesOf game with
      | some rows => rows
      | none => [])
  ensureNoLeakage (addTrainingLabels modelingData allSchedules)

/-- `FeatureAssembler.assemble_modeling_table`. -/
def assembleModelingTable (cfg : WindowsConfig)
    (seasonLoads : List (Option (List Game)))
    (metricsOf : ℤ → List TeamContestMetric) (season week : ℤ) :
    Except String (List Row) :=
  match loadAllSchedules seasonLoads with
  | .error e => .error e
  | .ok allSchedules =>
    .ok (assemblePipeline cfg allSchedules metricsOf season week)

/-! Spec-side definitions, for refinement comparisons.  Each follows the
spec's words, not the source. -/

/-- Follows the spec's words (§4.2): for window size `N` and target week `W`,
take the most recent `min(N, available-count)` historical rows, average each
metric, and multiply by the shrinkage factor. -/
def windowFeaturesSpec (cfg : WindowsConfig) (N : ℕ)
    (hist : List TeamContestMetric) (W : ℤ) : WindowFeatures :=
  let win := lastN N hist
  let s := getShrinkageFactor cfg win.length N W
  { off_epa_play := listMean (win.map (·.off_epa_play)) * s
    off_pass_epa_play := listMean (win.map (·.off_pass_epa_play)) * s
    off_run_epa_play := listMean (win.map (·.off_run_epa_play)) * s
    off_early_down_pass_epa_play :=
      listMean (win.map (·.off_early_down_pass_epa_play)) * s
    off_success_rate := listMean (win.map (·.off_success_rate)) * s
    def_epa_play_allowed := listMean (win.map (·.def_epa_play_allowed)) * s
    def_pass_epa_play_allowed :=
      listMean (win.map (·.def_pass_epa_play_allowed)) * s
    def_run_epa_play_allowed :=
      listMean (win.map (·.def_run_epa_play_allowed)) * s
    def_success_rate_allowed :=
      listMean (win.map (·.def_success_rate_allowed)) * s }

/-- Follows the spec's words (§4.3): combine opponent offensive EPA, negated
opponent defensive-EPA-allowed, opponent offensive success rate, and
`1 − opponent defensive success-rate-allowed` into an unweighted mean, scale
by `0.1`, add to `1.0`, clamp to `[0.5, 2.0]`. -/
def sosFactorSpec (offEpa defEpaAllowed offSuccess defSuccessAllowed : ℚ) :
    ℚ :=
  let meanStrength :=
    (offEpa + (-defEpaAllowed) + offSuccess + (1 - defSuccessAllowed)) / 4
  max (1 / 2) (min 2 (1 + (1 / 10) * meanStrength))

/-- Follows the spec's words (§4.4 step 3): whether the team won its contest —
by signed result if present, else by score comparison; `none` when the
outcome is unknown. -/
def teamWonSpec (g : Game) (isHome : Bool) : Option Bool :=
  match g.result with
  | some r => some (if isHome then r > 0 else r < 0)
  | none =>
    match g.home_score, g.away_score with
    | some hs, some as_ => some (if isHome then hs > as_ else as_ > hs)
    | _, _ => none

/-! Concrete sample data for scenarios, witnesses and counterexamples. -/

/-- A configuration with the spec-scenario constants: L3/L5/L6 windows of
3/5/6 games, early-season threshold 4 weeks, shrinkage 0.8. -/
def cfg0 : WindowsConfig :=
  { l3 := 3, l5 := 5, l6 := 6, ewma_alpha := 1 / 10, ewma_min_periods := 3
    early_min_weeks := 4, shrinkage := 4 / 5 }

/-- A week-1 team-game metric record for team KC. -/
def metricKC1 : TeamContestMetric :=
  { week := 1, team := "KC"
    off_epa_play := 1 / 10, off_pass_epa_play := 2 / 10
    off_run_epa_play := 3 / 10, off_early_down_pass_epa_play := 4 / 10
    off_success_rate := 5 / 10
    def_epa_play_allowed := 6 / 10, def_pass_epa_play_allowed := 7 / 10
    def_run_epa_play_allowed := 8 / 10, def_success_rate_allowed := 9 / 10 }

/-- A week-2 team-game metric record for team KC. -/
def metricKC2 : TeamContestMetric :=
  { week := 2, team := "KC"
    off_epa_play := 3 / 10, off_pass_epa_play := 4 / 10
    off_run_epa_play := 5 / 10, off_early_down_pass_epa_play := 6 / 10
    off_success_rate := 7 / 10
    def_epa_play_allowed := 8 / 10, def_pass_epa_play_allowed := 9 / 10
    def_run_epa_play_allowed := 1, def_success_rate_allowed := 11 / 10 }

/-- A two-game history (weeks 1 and 2) for the shrinkage scenario. -/
def twoGameHistory : List TeamContestMetric := [metricKC1, metricKC2]

/-- A history with two rows for the same team in the same week (week 1). -/
def duplicateWeekHistory : List TeamContestMetric :=
  [metricKC1, { metricKC2 with week := 1 }]

/-- The label-correctness scenario game: home KC 24, away BUF 17, no signed
result column. -/
def gameKCBUF : Game :=
  { game_id := "2024_01_BUF_KC", season := 2024, week := 1
    home_team := "KC", away_team := "BUF"
    spread_line := -3, total_line := 47, moneyline := -150
    home_score := some 24, away_score := some 17, result := none }

/-- A minimal home-perspective modeling row for the scenario game. -/
def rowKC : Row :=
  [ ("game_id", .str "2024_01_BUF_KC"), ("team", .str "KC"),
    ("home", .bool true) ]

/-- The away-perspective modeling row for the scenario game. -/
def rowBUF : Row :=
  [ ("game_id", .str "2024_01_BUF_KC"), ("team", .str "BUF"),
    ("home", .bool false) ]

/-- A schedule whose only KC contest is in week 1 (rest-days scenario: the
prior contest is 2 weeks before week 3). -/
def restScenarioGames : List Game :=
  [ { game_id := "2024_01_BUF_KC", season := 2024, week := 1
      home_team := "KC", away_team := "BUF"
      spread_line := -3, total_line := 47, moneyline := -150
      home_score := some 24, away_score := some 17, result := some 7 } ]

/-- A week-3 game between teams AAA and BBB. -/
def gameWeek3 : Game :=
  { game_id := "2024_03_BBB_AAA", season := 2024, week := 3
    home_team := "AAA", away_team := "BBB"
    spread_line := -2, total_line := 44, moneyline := -120
    home_score := some 20, away_score := some 10, result := some 10 }

/-- Weeks 1-2 metric histories for teams AAA and BBB. -/
def metricsAB : List TeamContestMetric :=
  [ { metricKC1 with team := "AAA" }, { metricKC2 with team := "AAA" },
    { metricKC1 with team := "BBB", off_epa_play := 2 / 10 },
    { metricKC2 with team := "BBB", off_epa_play := 4 / 10 } ]

/-- A schedule record in the future relative to target (2024, week 5). -/
def gameFuture : Game :=
  { game_id := "2024_06_CCC_DDD", season := 2024, week := 6
    home_team := "DDD", away_team := "CCC"
    spread_line := 1, total_line := 40, moneyline := 100
    home_score := none, away_score := none, result := none }

/-- The AAA history rows of `metricsAB`. -/
def metricsAAA : List TeamContestMetric :=
  [ { metricKC1 with team := "AAA" }, { metricKC2 with team := "AAA" } ]

/-! Helper lemmas. -/

lemma windowFeaturesSpec_nil (cfg : WindowsConfig) (N : ℕ) (W : ℤ) :
    windowFeaturesSpec cfg N [] W = zeroWindowFeatures := by
  simp [windowFeaturesSpec, lastN, listMean, zeroWindowFeatures]

lemma calculateWindowFeatures_lastN (cfg : WindowsConfig) (N : ℕ)
    (hist : List TeamContestMetric) (W : ℤ) :
    calculateWindowFeatures cfg (lastN N hist) N W
      = windowFeaturesSpec cfg N hist W := by
  by_cases h : (lastN N hist).isEmpty
  · have he : lastN N hist = [] := by rwa [List.isEmpty_iff] at h
    simp [calculateWindowFeatures, h, windowFeaturesSpec, he, listMean,
      zeroWindowFeatures]
  · simp only [calculateWindowFeatures, windowFeaturesSpec, h,
      Bool.false_eq_true, if_false]

lemma lastN_length (n : ℕ) (l : List α) :
    (lastN n l).length = min n l.length := by
  simp only [lastN, List.length_drop]
  omega

lemma mem_lastN {r : α} {n : ℕ} {l : List α} (h : r ∈ lastN n l) : r ∈ l :=
  List.drop_subset _ _ h

lemma histBefore_week_lt {r : TeamContestMetric}
    {teamData : List TeamContestMetric} {W : ℤ}
    (h : r ∈ histBefore teamData W) : r.week < W := by
  rw [histBefore, List.mem_filter] at h
  simpa using h.2

lemma histBefore_length (teamData : List TeamContestMetric) (W : ℤ) :
    (histBefore teamData W).length
      = (teamData.filter (fun r => decide (r.week < W))).length :=
  ((List.perm_insertionSort _ teamData).filter _).length_eq

lemma rollingRow_windows_eq (cfg : WindowsConfig)
    (teamData : List TeamContestMetric) (team : String) (season W : ℤ) :
    (rollingRowForTeamWeek cfg teamData team season W).l3
        = windowFeaturesSpec cfg cfg.l3 (histBefore teamData W) W
    ∧ (rollingRowForTeamWeek cfg teamData team season W).l5
        = windowFeaturesSpec cfg cfg.l5 (histBefore teamData W) W
    ∧ (rollingRowForTeamWeek cfg teamData team season W).l6
        = windowFeaturesSpec cfg cfg.l6 (histBefore teamData W) W := by
  by_cases h : (histBefore teamData W).isEmpty
  · have he : histBefore teamData W = [] := by rwa [List.isEmpty_iff] at h
    simp [rollingRowForTeamWeek, h, defaultRollingRow, he,
      windowFeaturesSpec_nil]
  · simp only [rollingRowForTeamWeek, h, Bool.false_eq_true, if_false,
      calculateTeamRollingFeatures, calculateWindowFeatures_lastN]
    exact ⟨trivial, trivial, trivial⟩

lemma foldl_max_lt {c : ℤ} :
    ∀ (ws : List ℤ) (w : ℤ), w < c → (∀ x ∈ ws, x < c) → ws.foldl max w < c := by
  intro ws
  induction ws with
  | nil => intro w hw _; exact hw
  | cons a t ih =>
    intro w hw h
    simp only [List.foldl_cons]
    exact ih (max w a) (max_lt hw (h a (by simp)))
      (fun x hx => h x (by simp [hx]))

lemma priorTeamGames_week_lt {g : Game} {gamesDf : List Game} {team : String}
    {W : ℤ} (h : g ∈ priorTeamGames gamesDf team W) : g.week < W := by
  rw [priorTeamGames, List.mem_filter] at h
  simpa using h.2

lemma calculateRestDays_nil (gamesDf : List Game) (team : String) (W : ℤ)
    (h : (priorTeamGames gamesDf team W).map Game.week = []) :
    calculateRestDays gamesDf team W = 7 := by
  unfold calculateRestDays
  rw [h]

lemma calculateRestDays_cons (gamesDf : List Game) (team : String) (W : ℤ)
    (w : ℤ) (ws : List ℤ)
    (h : (priorTeamGames gamesDf team W).map Game.week = w :: ws) :
    calculateRestDays gamesDf team W = (W - ws.foldl max w) * 7 := by
  unfold calculateRestDays
  rw [h]
  dsimp only
  split_ifs <;> omega

lemma find?_none_append {p : α → Bool} {l1 : List α} (l2 : List α)
    (h : l1.find? p = none) : (l1 ++ l2).find? p = l2.find? p := by
  induction l1 with
  | nil => simp
  | cons a t ih =>
    by_cases hp : p a
    · rw [List.find?_cons_of_pos _ hp] at h
      exact absurd h (by simp)
    · rw [List.find?_cons_of_neg _ hp] at h
      rw [List.cons_append, List.find?_cons_of_neg _ hp]
      exact ih h

lemma seriesGet_append_single {row : Row} {k : String} {v : ColValue}
    (h : seriesGet row k = none) :
    seriesGet (row ++ [(k, v)]) k = some v := by
  unfold seriesGet at h ⊢
  have hf : row.find? (fun kv => kv.1 = k) = none := by
    cases hr : row.find? (fun kv => kv.1 = k) with
    | none => rfl
    | some a => rw [hr] at h; exact absurd h (by simp)
  rw [find?_none_append _ hf]
  simp [List.find?]

lemma computeLabelValue_eq_spec (g : Game) (isHome : Bool) :
    computeLabelValue g isHome
      = (teamWonSpec g isHome).map
          (fun b => ColValue.num (if b then 1 else 0)) := by
  unfold computeLabelValue teamWonSpec
  cases g.result with
  | some r => cases isHome <;> by_cases h : r > 0 <;> by_cases h' : r < 0 <;>
      simp [h, h']
  | none =>
    cases hh : g.home_score with
    | none => cases g.away_score <;> simp
    | some hs =>
      cases ha : g.away_score with
      | none => simp
      | some as_ =>
        cases isHome <;> by_cases h : hs > as_ <;> by_cases h' : as_ > hs <;>
          simp [h, h']

lemma tableLeakFree_ensureNoLeakage (rows : List Row) :
    tableLeakFree (ensureNoLeakage rows) = true := by
  unfold tableLeakFree ensureNoLeakage rowLeakFree
  rw [List.all_eq_true]
  intro row' hrow'
  rw [List.mem_map] at hrow'
  obtain ⟨row, _, rfl⟩ := hrow'
  rw [List.all_eq_true]
  intro kv hkv
  rw [List.mem_filter] at hkv
  exact hkv.2

lemma tableLeakFree_pipeline (cfg : WindowsConfig) (allSchedules : List Game)
    (metricsOf : ℤ → List TeamContestMetric) (season week : ℤ) :
    tableLeakFree (assemblePipeline cfg allSchedules metricsOf season week)
      = true := by
  unfold assemblePipeline
  exact tableLeakFree_ensureNoLeakage _

/-! Claim theorems. -/

/-- Claim C1: every table the assembler returns has passed through the leakage
guard, so no emitted row contains a `home_score`, `away_score` or `result`
cell — those columns are stripped before the table is returned, and only the
`label_win` column (appended by the labeling stage) can carry outcome
information. -/
theorem claim_C1 (cfg : WindowsConfig) (seasonLoads : List (Option (List Game)))
    (metricsOf : ℤ → List TeamContestMetric) (season week : ℤ)
    (table : List Row)
    (h : assembleModelingTable cfg seasonLoads metricsOf season week
          = .ok table) :
    tableLeakFree table = true := by
  unfold assembleModelingTable at h
  cases hl : loadAllSchedules seasonLoads with
  | error e => rw [hl] at h; exact absurd h (by simp)
  | ok allSchedules =>
    rw [hl] at h
    have ht : assemblePipeline cfg allSchedules metricsOf season week
        = table := by
      exact Except.ok.inj h
    rw [← ht]
    exact tableLeakFree_pipeline cfg allSchedules metricsOf season week

/-- Witness for C1 at a concrete input (a one-game schedule at the target
week, empty metric table). -/
theorem claim_C1_witness : tableLeakFree ([] : List Row) = true :=
  claim_C1 cfg0 [some [gameKCBUF]] (fun _ => []) 2024 1 [] (by rfl)

/-- Claim C2: for a modeling row whose game is found in the schedule, the
labeling stage sets `label_win` to 1 iff the row's team won (by the signed
`result` column when present — home wins iff `result > 0`, away wins iff
`result < 0` — else by score comparison), to 0 when it lost, and to null when
the outcome is unknown. -/
theorem claim_C2 (schedules : List Game) (row : Row) (g : Game)
    (isHome : Bool)
    (hgid : seriesGet row "game_id" = some (.str g.game_id))
    (hhome : seriesGet row "home" = some (.bool isHome))
    (hfind : schedules.find? (fun x => decide (x.game_id = g.game_id))
        = some g)
    (hnolabel : seriesGet row "label_win" = none) :
    seriesGet (labelRowFor schedules row) "label_win"
      = some (match teamWonSpec g isHome with
              | some true => ColValue.num 1
              | some false => ColValue.num 0
              | none => ColValue.null) := by
  unfold labelRowFor
  rw [hgid, hhome]
  dsimp only
  rw [hfind]
  dsimp only
  rw [computeLabelValue_eq_spec]
  cases hw : teamWonSpec g isHome with
  | none => exact seriesGet_append_single hnolabel
  | some b =>
    cases b <;> exact seriesGet_append_single hnolabel

/-- Witness for C2: the label-correctness scenario — home 24, away 17, no
signed result; the home row is labeled 1, the away row 0. -/
theorem claim_C2_witness :
    seriesGet (labelRowFor [gameKCBUF] rowKC) "label_win"
        = some (ColValue.num 1)
    ∧ seriesGet (labelRowFor [gameKCBUF] rowBUF) "label_win"
        = some (ColValue.num 0) := by
  constructor
  · exact (claim_C2 [gameKCBUF] rowKC gameKCBUF true (by rfl) (by rfl)
      (by rfl) (by rfl)).trans (by rfl)
  · exact (claim_C2 [gameKCBUF] rowBUF gameKCBUF false (by rfl) (by rfl)
      (by rfl) (by rfl)).trans (by rfl)

/-- Claim C3: for every team history and target week `W`, each of the L3, L5
and L6 feature sets equals the per-metric mean of the most recent
`min(N, available-count)` rows with week `< W` (sorted by week ascending),
multiplied by the shrinkage factor; only rows with week `< W` can
contribute; and with no history before `W` the emitted row is the explicit
all-zero default. -/
theorem claim_C3 (cfg : WindowsConfig) (teamData : List TeamContestMetric)
    (team : String) (season W : ℤ) :
    (rollingRowForTeamWeek cfg teamData team season W).l3
        = windowFeaturesSpec cfg cfg.l3 (histBefore teamData W) W
    ∧ (rollingRowForTeamWeek cfg teamData team season W).l5
        = windowFeaturesSpec cfg cfg.l5 (histBefore teamData W) W
    ∧ (rollingRowForTeamWeek cfg teamData team season W).l6
        = windowFeaturesSpec cfg cfg.l6 (histBefore teamData W) W
    ∧ (∀ n : ℕ, (lastN n (histBefore teamData W)).length
        = min n (histBefore teamData W).length)
    ∧ (∀ n : ℕ, ∀ r ∈ lastN n (histBefore teamData W), r.week < W)
    ∧ (histBefore teamData W).length
        = (teamData.filter (fun r => decide (r.week < W))).length
    ∧ (histBefore teamData W = [] →
        rollingRowForTeamWeek cfg teamData team season W
          = defaultRollingRow team season W) := by
  obtain ⟨h3, h5, h6⟩ := rollingRow_windows_eq cfg teamData team season W
  refine ⟨h3, h5, h6, fun n => lastN_length n _, ?_, histBefore_length _ _, ?_⟩
  · intro n r hr
    exact histBefore_week_lt (mem_lastN hr)
  · intro he
    simp [rollingRowForTeamWeek, he]

/-- Witness for C3: a team with no history at all gets the all-zero default
row at week 3. -/
theorem claim_C3_witness :
    rollingRowForTeamWeek cfg0 ([] : List TeamContestMetric) "KC" 2024 3
      = defaultRollingRow "KC" 2024 3 :=
  (claim_C3 cfg0 [] "KC" 2024 3).2.2.2.2.2.2 (by rfl)

/-- Claim C4: the shrinkage factor equals the configured shrinkage constant
exactly when the current week is below the early-season threshold AND the
window holds fewer rows than its nominal size, and `1` otherwise; and in the
spec scenario (threshold 4, shrinkage 0.8, two historical games, L3 at
week 3) every L3 value is the two-game average times exactly 0.8. -/
theorem claim_C4 (cfg : WindowsConfig) (dataLength windowSize : ℕ) (W : ℤ) :
    getShrinkageFactor cfg dataLength windowSize W
        = (if W < cfg.early_min_weeks ∧ dataLength < windowSize
           then cfg.shrinkage else 1)
    ∧ (rollingRowForTeamWeek cfg0 twoGameHistory "KC" 2024 3).l3
        = { off_epa_play := (((1 : ℚ)/10 + 3/10) / 2) * (4/5)
            off_pass_epa_play := (((2 : ℚ)/10 + 4/10) / 2) * (4/5)
            off_run_epa_play := (((3 : ℚ)/10 + 5/10) / 2) * (4/5)
            off_early_down_pass_epa_play := (((4 : ℚ)/10 + 6/10) / 2) * (4/5)
            off_success_rate := (((5 : ℚ)/10 + 7/10) / 2) * (4/5)
            def_epa_play_allowed := (((6 : ℚ)/10 + 8/10) / 2) * (4/5)
            def_pass_epa_play_allowed := (((7 : ℚ)/10 + 9/10) / 2) * (4/5)
            def_run_epa_play_allowed := (((8 : ℚ)/10 + 1) / 2) * (4/5)
            def_success_rate_allowed := (((9 : ℚ)/10 + 11/10) / 2) * (4/5) } := by
  constructor
  · unfold getShrinkageFactor
    split_ifs <;> first | rfl | omega
  · norm_num [rollingRowForTeamWeek, histBefore, sortByWeek, twoGameHistory,
      metricKC1, metricKC2, List.insertionSort, List.orderedInsert,
      calculateTeamRollingFeatures, calculateWindowFeatures, lastN, listMean,
      getShrinkageFactor, cfg0]

/-- Claim C5: the SoS factor is the clamp to `[0.5, 2.0]` of
`1 + 0.1 × mean(off EPA, −def-EPA-allowed, off success, 1 − def success
allowed)`; it always lies within `[0.5, 2.0]`; and whenever the team's or
opponent's rolling lookup comes back empty the emitted row is the neutral
default with factor exactly `1` and zeroed strength components. -/
theorem claim_C5 (a b c d : ℚ) (season week : ℤ) (team : String)
    (tr orr : Option RollingRow) :
    calculateSosFactor a b c d = sosFactorSpec a b c d
    ∧ 1/2 ≤ calculateSosFactor a b c d
    ∧ calculateSosFactor a b c d ≤ 2
    ∧ calculateSosRow season week team none orr
        = defaultSosRow season week team
    ∧ calculateSosRow season week team tr none
        = defaultSosRow season week team
    ∧ (defaultSosRow season week team).sos_adjustment_factor = 1
    ∧ (defaultSosRow season week team).opponent_off_epa_l3 = 0
    ∧ (defaultSosRow season week team).opponent_def_epa_allowed_l3 = 0
    ∧ (defaultSosRow season week team).opponent_off_success_l3 = 0
    ∧ (defaultSosRow season week team).opponent_def_success_allowed_l3 = 0 := by
  refine ⟨?_, le_max_left _ _, max_le (by norm_num) (min_le_left _ _),
    ?_, ?_, rfl, rfl, rfl, rfl, rfl⟩
  · unfold calculateSosFactor sosFactorSpec
    dsimp only
    ring_nf
  · cases orr <;> rfl
  · cases tr <;> rfl

/-- Claim C6: with no prior contest before the current week the rest-days
value is exactly 7; otherwise it is (current week − most recent prior week)
× 7 (the canonical-delta branch chain is the identity); and the scenario of a
sole prior contest two weeks earlier yields exactly 14. -/
theorem claim_C6 (gamesDf : List Game) (team : String) (W : ℤ) :
    (priorTeamGames gamesDf team W = [] →
        calculateRestDays gamesDf team W = 7)
    ∧ (∀ w ws, (priorTeamGames gamesDf team W).map Game.week = w :: ws →
        calculateRestDays gamesDf team W = (W - ws.foldl max w) * 7)
    ∧ calculateRestDays restScenarioGames "KC" 3 = 14 := by
  refine ⟨fun h => calculateRestDays_nil _ _ _ (by rw [h]; rfl),
    fun w ws h => calculateRestDays_cons _ _ _ _ _ h, rfl⟩

/-- Witness for C6: the rest-days scenario, discharged through the general
theorem at the concrete schedule. -/
theorem claim_C6_witness : calculateRestDays restScenarioGames "KC" 3 = 14 :=
  ((claim_C6 restScenarioGames "KC" 3).2.1 1 [] (by rfl)).trans (by norm_num)

/-- Claim C7 (counterexample): on a history holding two same-week rows for the
same team, the aggregator raises nothing — the computation succeeds, and the
window value is the mean over both duplicated rows (times shrinkage), so no
`InconsistentHistoryError` is surfaced. -/
theorem claim_C7_counterexample :
    exceptIsOk (calculateRollingFeatures cfg0 duplicateWeekHistory 2024 2)
        = true
    ∧ (rollingRowForTeamWeek cfg0 duplicateWeekHistory "KC" 2024 2).l3.off_epa_play
        = (((1 : ℚ)/10 + 3/10) / 2) * (4/5) := by
  refine ⟨rfl, ?_⟩
  norm_num [rollingRowForTeamWeek, histBefore, sortByWeek,
    duplicateWeekHistory, metricKC1, metricKC2, List.insertionSort,
    List.orderedInsert, calculateTeamRollingFeatures,
    calculateWindowFeatures, lastN, listMean, getShrinkageFactor, cfg0]

/-- Claim C7 (amended): within the validated season/week ranges the rolling
calculator always returns `ok` — duplicate same-week rows are silently
included in the windows, never surfaced as an error. -/
theorem claim_C7_amended (cfg : WindowsConfig)
    (metrics : List TeamContestMetric) (season : ℤ) (week : ℕ)
    (h1 : 2000 ≤ season) (h2 : season ≤ 2030) (h3 : 1 ≤ week)
    (h4 : week ≤ 22) :
    calculateRollingFeatures cfg metrics season week
      = .ok (calculateRollingWindows cfg metrics season week) := by
  unfold calculateRollingFeatures
  rw [if_neg (by omega), if_neg (by omega)]

/-- Witness for C7 (amended): the duplicate-week history at season 2024,
week 2 yields an `ok` result. -/
theorem claim_C7_witness :
    calculateRollingFeatures cfg0 duplicateWeekHistory 2024 2
      = Except.ok (calculateRollingWindows cfg0 duplicateWeekHistory 2024 2) :=
  claim_C7_amended cfg0 duplicateWeekHistory 2024 2 (by norm_num)
    (by norm_num) (by norm_num) (by norm_num)

/-- Claim C8 (counterexample): a schedule range that loads one game which is
future relative to the target (season 2024, week 6 > target week 5) yields
zero contests after the future-game discard, yet the assembler returns an
empty `ok` table instead of failing. -/
theorem claim_C8_counterexample :
    assembleModelingTable cfg0 [some [gameFuture]] (fun _ => []) 2024 5
      = Except.ok [] := rfl

/-- Claim C8 (amended): the assembler errors exactly when every per-season
schedule load fails (zero loaded schedule tables); whenever at least one
season loads — even if every loaded contest is future — it returns `ok` with
the (possibly empty) assembled table. -/
theorem claim_C8_amended (cfg : WindowsConfig)
    (seasonLoads : List (Option (List Game)))
    (metricsOf : ℤ → List TeamContestMetric) (season week : ℤ) :
    ((seasonLoads.filterMap id).isEmpty = true →
        assembleModelingTable cfg seasonLoads metricsOf season week
          = .error "No schedules data available")
    ∧ ((seasonLoads.filterMap id).isEmpty = false →
        assembleModelingTable cfg seasonLoads metricsOf season week
          = .ok (assemblePipeline cfg (seasonLoads.filterMap id).flatten
              metricsOf season week)) := by
  constructor <;> intro h <;>
    simp [assembleModelingTable, loadAllSchedules, h]

/-- Witness for C8 (amended): with no season loading at all, the assembler
raises the no-schedules error. -/
theorem claim_C8_witness :
    assembleModelingTable cfg0 ([] : List (Option (List Game)))
        (fun _ => []) 2024 5 = Except.error "No schedules data available" :=
  (claim_C8_amended cfg0 [] (fun _ => []) 2024 5).1 (by rfl)

/-- Claim C9 (divergence at the failing input): for the week-3 contest
AAA-BBB, the assembler's team-only selection picks AAA's week-1 rolling row
(the all-zero default) instead of the week-3 row; the `(team, week)`-keyed
row for week 3 exists and its L3 EPA is the nonzero two-game average times
shrinkage; and the game in fact contributes no modeling rows at all, because
combining features raises a `KeyError` on the missing `home` column of the
situational row (caught by the blanket `except`). -/
theorem claim_C9_divergence :
    (selectTeamRolling (calculateRollingWindows cfg0 metricsAB 2024 3)
        "AAA").map RollingRow.week = some 1
    ∧ gameWeek3.week = 3
    ∧ (selectTeamRolling (calculateRollingWindows cfg0 metricsAB 2024 3)
        "AAA").map RollingRow.l3 = some zeroWindowFeatures
    ∧ lookupRolling (calculateRollingWindows cfg0 metricsAB 2024 3) "AAA" 3
        = some (rollingRowForTeamWeek cfg0 metricsAAA "AAA" 2024 3)
    ∧ (rollingRowForTeamWeek cfg0 metricsAAA "AAA" 2024 3).l3.off_epa_play
        = (((1 : ℚ)/10 + 3/10) / 2) * (4/5)
    ∧ ((((1 : ℚ)/10 + 3/10) / 2) * (4/5) ≠ 0)
    ∧ assembleGameFeatures cfg0 (fun _ => metricsAB) (fun _ => [gameWeek3])
        gameWeek3 = none := by
  refine ⟨rfl, rfl, rfl, rfl, ?_, by norm_num, rfl⟩
  norm_num [rollingRowForTeamWeek, histBefore, sortByWeek, metricsAAA,
    metricKC1, metricKC2, List.insertionSort, List.orderedInsert,
    calculateTeamRollingFeatures, calculateWindowFeatures, lastN, listMean,
    getShrinkageFactor, cfg0]

/-- Claim C10: the rest-days value is always a positive multiple of 7 and at
least 7 — in particular the 6-day short-week value can never be produced. -/
theorem claim_C10 (gamesDf : List Game) (team : String) (W : ℤ) :
    7 ∣ calculateRestDays gamesDf team W
    ∧ 7 ≤ calculateRestDays gamesDf team W
    ∧ calculateRestDays gamesDf team W ≠ 6 := by
  cases hmap : (priorTeamGames gamesDf team W).map Game.week with
  | nil =>
    rw [calculateRestDays_nil _ _ _ hmap]
    norm_num
  | cons w ws =>
    rw [calculateRestDays_cons _ _ _ _ _ hmap]
    have hweek : ∀ x ∈ w :: ws, x < W := by
      intro x hx
      have hx' : x ∈ (priorTeamGames gamesDf team W).map Game.week := by
        rw [hmap]; exact hx
      rw [List.mem_map] at hx'
      obtain ⟨g, hg, rfl⟩ := hx'
      exact priorTeamGames_week_lt hg
    have hlt : ws.foldl max w < W :=
      foldl_max_lt ws w (hweek w (by simp)) (fun x hx => hweek x (by simp [hx]))
    refine ⟨dvd_mul_left 7 _, ?_, ?_⟩ <;> omega

/-- Witness for C10 at the concrete rest-days scenario schedule. -/
theorem claim_C10_witness :
    7 ∣ calculateRestDays restScenarioGames "KC" 3
    ∧ 7 ≤ calculateRestDays restScenarioGames "KC" 3
    ∧ calculateRestDays restScenarioGames "KC" 3 ≠ 6 :=
  claim_C10 restScenarioGames "KC" 3

end NFL
